import Mathlib

/-!
Verification of the user-account authentication service against its design
document.  The repository holds two source files:

* `Rishab node/server.js` — a middleware `fakeAuth` validating the
  `authorization` header against the fixed string `FAKE_TOKEN_123`.
* `testing_repo21/server.js` — the Express wiring of the user service:
  CORS policy, the API-documentation endpoint, and the 404 handler.

The core token/OTP/session logic described by the design document is not
present in the sources (only its HTTP documentation is); where a claim is
decided by that missing code, the corresponding definitions are modelled
from the specification and marked as such in their doc comments.
-/

namespace UserService

/-! ### Embedding of `Rishab node/server.js` (`fakeAuth`) -/

/-- Outcome of an Express middleware: either a JSON response with an HTTP
status and an `error` field, or passing control to `next()`. -/
inductive MwResult where
  | respond (status : Nat) (error : String)
  | next
deriving DecidableEq

/-- JavaScript falsiness of a header value: the header is `undefined`
(absent) or the empty string. -/
def jsFalsy : Option String → Bool
  | none => true
  | some s => s == ""

/-- `fakeAuth` from `Rishab node/server.js`: reads the `authorization`
header; responds `401` if the value is falsy, `403` if it differs from the
fixed string `FAKE_TOKEN_123`, and otherwise calls `next()`.  It is a pure
function of the header value alone. -/
def fakeAuth (authHeader : Option String) : MwResult :=
  if jsFalsy authHeader then .respond 401 "No token provided"
  else if authHeader ≠ some "FAKE_TOKEN_123" then .respond 403 "Invalid token"
  else .next

/-- The observable content of claim C1 that is checkable against
`fakeAuth`: the specified `verifyAccess` has two distinct failure kinds for
provided tokens (`TokenExpired` for an expired token, `TokenInvalid` for a
bad signature), which are distinct user-visible errors in the design
document's error taxonomy.  Hence there must exist two provided (non-falsy)
token strings whose failure outcomes differ. -/
def claimC1FailureSeparation : Prop :=
  ∃ t1 t2 : String, t1 ≠ "" ∧ t2 ≠ "" ∧
    fakeAuth (some t1) ≠ MwResult.next ∧ fakeAuth (some t2) ≠ MwResult.next ∧
    fakeAuth (some t1) ≠ fakeAuth (some t2)

/-- Claim C8: `fakeAuth` responds `401 No token provided` exactly on a
falsy header, `403 Invalid token` exactly on a provided value other than
`FAKE_TOKEN_123`, passes control exactly on `FAKE_TOKEN_123`, and no other
outcome is possible. -/
theorem c8_fakeAuth_characterization (h : Option String) :
    (fakeAuth h = .respond 401 "No token provided" ↔ (h = none ∨ h = some "")) ∧
    (fakeAuth h = .respond 403 "Invalid token" ↔
      ∃ t, h = some t ∧ t ≠ "" ∧ t ≠ "FAKE_TOKEN_123") ∧
    (fakeAuth h = .next ↔ h = some "FAKE_TOKEN_123") ∧
    (fakeAuth h = .respond 401 "No token provided" ∨
      fakeAuth h = .respond 403 "Invalid token" ∨ fakeAuth h = .next) := by
  match h with
  | none => simp [fakeAuth, jsFalsy]
  | some t =>
    by_cases h1 : t = ""
    · subst h1; simp [fakeAuth, jsFalsy]
    · by_cases h2 : t = "FAKE_TOKEN_123"
      · subst h2; simp [fakeAuth, jsFalsy]
      · simp [fakeAuth, jsFalsy, h1, h2]

/-- Claim C1, counterexample: `fakeAuth` — the only token verification in
the sources — has a single failure outcome (`403 Invalid token`) for every
provided token, so it cannot fail with `TokenExpired` on an expired token
and with a distinct `TokenInvalid` on a tampered one; its success outcome
`next` also carries no account identifier. -/
theorem c1_counterexample : ¬ claimC1FailureSeparation := by
  rintro ⟨t1, t2, h1, h2, n1, n2, hne⟩
  have e1 : fakeAuth (some t1) = .respond 403 "Invalid token" := by
    by_cases hm : t1 = "FAKE_TOKEN_123"
    · subst hm; simp [fakeAuth, jsFalsy] at n1
    · simp [fakeAuth, jsFalsy, h1, hm]
  have e2 : fakeAuth (some t2) = .respond 403 "Invalid token" := by
    by_cases hm : t2 = "FAKE_TOKEN_123"
    · subst hm; simp [fakeAuth, jsFalsy] at n2
    · simp [fakeAuth, jsFalsy, h2, hm]
  exact hne (e1.trans e2.symm)

/-- Claim C1, amended: for every provided (non-empty) token string `t`,
the verification middleware checks `t` against the fixed string
`FAKE_TOKEN_123`; it passes control on exact match (returning no account
identifier) and otherwise fails with the single `403 Invalid token`
response, with no separate expiry failure; being a pure function of the
header value, its result depends on no session state. -/
theorem c1_amended (t : String) (ht : t ≠ "") :
    (fakeAuth (some t) = .next ↔ t = "FAKE_TOKEN_123") ∧
    (t ≠ "FAKE_TOKEN_123" → fakeAuth (some t) = .respond 403 "Invalid token") := by
  constructor
  · constructor
    · intro hn
      by_contra hm
      simp [fakeAuth, jsFalsy, ht, hm] at hn
    · intro hm; subst hm; simp [fakeAuth, jsFalsy]
  · intro hm; simp [fakeAuth, jsFalsy, ht, hm]

/-- Witness for the amended claim C1 at the concrete tokens
`FAKE_TOKEN_123` and `bogus`. -/
theorem c1_amended_witness :
    fakeAuth (some "FAKE_TOKEN_123") = .next ∧
    fakeAuth (some "bogus") = .respond 403 "Invalid token" :=
  ⟨(c1_amended "FAKE_TOKEN_123" (by decide)).1.mpr rfl,
   (c1_amended "bogus" (by decide)).2 (by decide)⟩

/-! ### Embedding of `testing_repo21/server.js`: CORS policy -/

/-- Decision of the CORS `origin` callback: `callback(null, true)` or
`callback(new Error(msg))`. -/
inductive CorsDecision where
  | allow
  | blockError (msg : String)
deriving DecidableEq

/-- The hard-coded fallback allow-list: six localhost origins plus the
production frontend. -/
def defaultAllowedOrigins : List String :=
  ["http://localhost:4007", "http://localhost:4040", "http://localhost:8080",
   "http://localhost:3000", "http://localhost:3001", "http://localhost:4015",
   "https://oms-ims.onrender.com"]

/-- The allow-list computed by `corsOptions.origin`: when the environment
variable `ALLOWED_ORIGINS` is truthy (present and non-empty) it is split on
commas and each entry trimmed; otherwise the hard-coded default is used. -/
def allowedOrigins (envAllowed : Option String) : List String :=
  match envAllowed with
  | some s => if s = "" then defaultAllowedOrigins
              else (s.splitOn ",").map String.trim
  | none => defaultAllowedOrigins

/-- The `corsOptions.origin` callback from `testing_repo21/server.js`:
a falsy origin (absent or empty) is allowed immediately; otherwise the
origin is allowed exactly when it is in the allow-list, and blocked with
`Not allowed by CORS` otherwise. -/
def corsOrigin (origin : Option String) (envAllowed : Option String) : CorsDecision :=
  if jsFalsy origin then .allow
  else if (origin.getD "") ∈ allowedOrigins envAllowed then .allow
  else .blockError "Not allowed by CORS"

/-- The allow-list as claim C10 words it: `ALLOWED_ORIGINS` *when set*
(split on commas, trimmed), otherwise the default list. -/
def claimC10AllowList : Option String → List String
  | some s => (s.splitOn ",").map String.trim
  | none => defaultAllowedOrigins

/-- Claim C10, counterexample: a request carrying an *empty* `Origin`
header does carry an `Origin` header, yet the callback accepts it although
the empty string is not in the configured allow-list — the code tests
JavaScript falsiness of the value, not absence of the header. -/
theorem c10_counterexample :
    corsOrigin (some "") none = .allow ∧ "" ∉ claimC10AllowList none := by
  exact ⟨rfl, by decide⟩

/-- Claim C10, amended: the callback accepts every request whose origin
value is falsy (header absent or empty); for a truthy origin it accepts if
and only if the origin is in the configured allow-list (`ALLOWED_ORIGINS`,
split on commas and trimmed, when set to a non-empty string, otherwise the
default list of six localhost origins plus `https://oms-ims.onrender.com`),
and otherwise calls back with the error `Not allowed by CORS`. -/
theorem c10_amended (origin envAllowed : Option String) :
    (jsFalsy origin = true → corsOrigin origin envAllowed = .allow) ∧
    (∀ o : String, origin = some o → o ≠ "" →
      ((corsOrigin origin envAllowed = .allow ↔ o ∈ allowedOrigins envAllowed) ∧
       (o ∉ allowedOrigins envAllowed →
         corsOrigin origin envAllowed = .blockError "Not allowed by CORS"))) := by
  constructor
  · intro hf; simp [corsOrigin, hf]
  · rintro o rfl ho
    have hfal : jsFalsy (some o) = false := by simp [jsFalsy, ho]
    by_cases hmem : o ∈ allowedOrigins envAllowed
    · constructor
      · simp [corsOrigin, hfal, Option.getD, hmem]
      · intro hn; exact absurd hmem hn
    · constructor
      · simp [corsOrigin, hfal, Option.getD, hmem]
      · intro _; simp [corsOrigin, hfal, Option.getD, hmem]

/-- Witness for the amended claim C10: a concrete allowed origin and a
concrete blocked origin under the default configuration. -/
theorem c10_amended_witness :
    corsOrigin (some "http://localhost:3000") none = .allow ∧
    corsOrigin (some "http://evil.example") none = .blockError "Not allowed by CORS" := by
  constructor
  · exact ((c10_amended (some "http://localhost:3000") none).2
      "http://localhost:3000" rfl (by decide)).1.mpr (by decide)
  · exact ((c10_amended (some "http://evil.example") none).2
      "http://evil.example" rfl (by decide)).2 (by decide)

/-! ### Embedding of `testing_repo21/server.js`: the 404 handler -/

/-- The JSON body (plus HTTP status) produced by the catch-all 404
handler. -/
structure NotFoundResponse where
  status : Nat
  error : String
  message : String
  requestId : String
  availableEndpoints : List String
deriving DecidableEq

/-- The twelve path suffixes listed under `availableEndpoints`, in source
order; each is rendered under the `config.routes.user` prefix. -/
def availableEndpointSuffixes : List String :=
  ["docs", "health", "profile", "refresh-token", "register", "register_auth",
   "login", "reset_pass_user_auth", "reset_pass_otp_auth", "reset_password",
   "resend_otp", "logout"]

/-- The catch-all 404 handler from `testing_repo21/server.js`: responds
`404` with `error: Route not found`, echoes the request id, and lists the
available endpoints under the user-route prefix. -/
def notFoundHandler (userRoute : String) (requestId : String) : NotFoundResponse :=
  { status := 404
    error := "Route not found"
    message := "The requested endpoint does not exist"
    requestId := requestId
    availableEndpoints :=
      availableEndpointSuffixes.map (fun s => "/" ++ userRoute ++ "/" ++ s) }

/-- Claim C9: for every unmatched request the 404 handler responds with
HTTP status `404`, error `Route not found`, and a fixed
`availableEndpoints` list of exactly the twelve registered paths (docs,
health, profile, refresh-token, register, register_auth, login,
reset_pass_user_auth, reset_pass_otp_auth, reset_password, resend_otp,
logout), each under the user-route prefix. -/
theorem c9_notFound_response (userRoute requestId : String) :
    (notFoundHandler userRoute requestId).status = 404 ∧
    (notFoundHandler userRoute requestId).error = "Route not found" ∧
    (notFoundHandler userRoute requestId).requestId = requestId ∧
    (notFoundHandler userRoute requestId).availableEndpoints =
      ["/" ++ userRoute ++ "/docs", "/" ++ userRoute ++ "/health",
       "/" ++ userRoute ++ "/profile", "/" ++ userRoute ++ "/refresh-token",
       "/" ++ userRoute ++ "/register", "/" ++ userRoute ++ "/register_auth",
       "/" ++ userRoute ++ "/login", "/" ++ userRoute ++ "/reset_pass_user_auth",
       "/" ++ userRoute ++ "/reset_pass_otp_auth", "/" ++ userRoute ++ "/reset_password",
       "/" ++ userRoute ++ "/resend_otp", "/" ++ userRoute ++ "/logout"] := by
  refine ⟨rfl, rfl, rfl, ?_⟩
  simp [notFoundHandler, availableEndpointSuffixes, String.append_assoc]

/-! ### Embedding of `testing_repo21/server.js`: the API documentation -/

/-- HTTP method of a documented endpoint. -/
inductive Method where
  | GET
  | POST
deriving DecidableEq

/-- A documented request parameter: its name and whether it is required. -/
structure Param where
  name : String
  required : Bool
deriving DecidableEq

/-- A documented endpoint: method, path suffix under the user-route
prefix, and its parameters. -/
structure Endpoint where
  method : Method
  path : String
  params : List Param
deriving DecidableEq

/-- The endpoints of the `apiDocumentation` object served by the docs
route, in source order, with each parameter's `required` flag as
documented. -/
def documentedEndpoints : List Endpoint :=
  [{ method := .GET, path := "health", params := [] },
   { method := .GET, path := "profile", params := [⟨"email", true⟩] },
   { method := .POST, path := "refresh-token", params := [⟨"refreshToken", true⟩] },
   { method := .POST, path := "resend_otp", params := [⟨"email", true⟩, ⟨"event", true⟩] },
   { method := .POST, path := "register",
     params := [⟨"email", true⟩, ⟨"phone", true⟩, ⟨"companyName", false⟩,
                ⟨"password", true⟩, ⟨"first_name", true⟩, ⟨"last_name", true⟩] },
   { method := .POST, path := "register_auth", params := [⟨"email", true⟩, ⟨"otp", true⟩] },
   { method := .POST, path := "login", params := [⟨"email", true⟩, ⟨"password", true⟩] },
   { method := .POST, path := "reset_pass_user_auth", params := [⟨"email", true⟩] },
   { method := .POST, path := "reset_pass_otp_auth", params := [⟨"email", true⟩, ⟨"otp", true⟩] },
   { method := .POST, path := "reset_password", params := [⟨"email", true⟩, ⟨"newPassword", true⟩] },
   { method := .POST, path := "logout", params := [⟨"email", true⟩] }]

/-- Modelled from the spec: the literal endpoint contract of design
document section 6, in its order, with its required fields (`companyName`
optional on registration). -/
def specContractEndpoints : List Endpoint :=
  [{ method := .POST, path := "register",
     params := [⟨"email", true⟩, ⟨"phone", true⟩, ⟨"password", true⟩,
                ⟨"first_name", true⟩, ⟨"last_name", true⟩, ⟨"companyName", false⟩] },
   { method := .POST, path := "register_auth", params := [⟨"email", true⟩, ⟨"otp", true⟩] },
   { method := .POST, path := "resend_otp", params := [⟨"email", true⟩, ⟨"event", true⟩] },
   { method := .POST, path := "login", params := [⟨"email", true⟩, ⟨"password", true⟩] },
   { method := .POST, path := "refresh-token", params := [⟨"refreshToken", true⟩] },
   { method := .GET, path := "profile", params := [⟨"email", true⟩] },
   { method := .POST, path := "reset_pass_user_auth", params := [⟨"email", true⟩] },
   { method := .POST, path := "reset_pass_otp_auth", params := [⟨"email", true⟩, ⟨"otp", true⟩] },
   { method := .POST, path := "reset_password", params := [⟨"email", true⟩, ⟨"newPassword", true⟩] },
   { method := .POST, path := "logout", params := [⟨"email", true⟩] }]

/-- Claim C2, counterexample: the exposed endpoint set is strictly larger
than the spec's ten-endpoint contract — the service also documents a
`GET health` endpoint and the 404 handler additionally lists the `docs`
path, neither of which is in the contract. -/
theorem c2_counterexample :
    (documentedEndpoints.any fun d => d.path == "health") = true ∧
    (specContractEndpoints.all fun e => e.path != "health") = true ∧
    "docs" ∈ availableEndpointSuffixes ∧
    "docs" ∉ specContractEndpoints.map Endpoint.path := by
  refine ⟨rfl, by decide, by decide, by decide⟩

/-- Claim C2, amended: every endpoint of the spec's literal contract is
documented with the same method, the same path, and exactly the same
parameters with the same required flags (as a multiset, the documented
order of the registration fields differing); the documented endpoint paths
are exactly the contract paths plus `health`; and the 404 handler's
`availableEndpoints` paths are exactly the contract paths plus `docs` and
`health`. -/
theorem c2_amended :
    (specContractEndpoints.all fun e => documentedEndpoints.any fun d =>
        d.method == e.method && d.path == e.path &&
        (Multiset.ofList d.params == Multiset.ofList e.params)) = true ∧
    Multiset.ofList (documentedEndpoints.map Endpoint.path)
      = Multiset.ofList ("health" :: specContractEndpoints.map Endpoint.path) ∧
    Multiset.ofList availableEndpointSuffixes
      = Multiset.ofList ("docs" :: "health" :: specContractEndpoints.map Endpoint.path) := by
  refine ⟨by decide, by decide, by decide⟩

/-- The `response` object documented for the login endpoint. -/
structure LoginResponseDoc where
  accessToken : String
  refreshToken : String
  tokenType : String
  expiresIn : String
  refreshExpiresIn : String
  user : String
deriving DecidableEq

/-- The login `response` documentation from `apiDocumentation`. -/
def loginResponseDoc : LoginResponseDoc :=
  { accessToken := "JWT access token (15min expiry)"
    refreshToken := "JWT refresh token (7 days expiry)"
    tokenType := "Bearer"
    expiresIn := "15m"
    refreshExpiresIn := "7d"
    user := "User profile object" }

/-- The `authentication.features` list from `apiDocumentation`. -/
def authFeatures : List String :=
  ["Access Token (15min expiry)", "Refresh Token (7 days expiry)",
   "HTTP-only Cookies", "Automatic token refresh"]

/-! ### Token Service and Session Registry

The token-issuing and rotation logic is not present under `src/` (only its
HTTP documentation is), so it is modelled from the spec below. -/

/-- Modelled from the spec: a signed token binding account identifier,
issuance time, expiry time and a unique token identifier; `sig` is the
signature over the other fields.  The missing source is the Token Service
of design document section 4.3. -/
structure SpecToken where
  accountId : String
  issuedAt : Nat
  expiresAt : Nat
  jti : Nat
  sig : Nat
deriving DecidableEq

/-- Modelled from the spec: the pluggable signing capability
(`sign(claims) -> token`), realised as an executable keyed MAC over the
claims. -/
def tokenMac (key : Nat) (accountId : String) (issuedAt expiresAt jti : Nat) : Nat :=
  (accountId.data.foldl (fun h c => h * 1114112 + c.toNat) 7) * 1000003
    + key * 31 + issuedAt * 17 + expiresAt * 13 + jti * 11

/-- Signature check of a token against the signing key. -/
def verifySig (key : Nat) (t : SpecToken) : Bool :=
  t.sig == tokenMac key t.accountId t.issuedAt t.expiresAt t.jti

/-- Access-token TTL: 15 minutes, in seconds. -/
def accessTTL : Nat := 15 * 60

/-- Refresh-token TTL: 7 days, in seconds. -/
def refreshTTL : Nat := 7 * 24 * 60 * 60

/-- Modelled from the spec: a Session Registry entry (account identifier,
refresh-token identifier, issued-at, revoked flag); section 4.4. -/
structure SessionEntry where
  accountId : String
  tokenId : Nat
  issuedAt : Nat
  revoked : Bool
deriving DecidableEq

/-- The Session Registry backing store. -/
abbrev SessionRegistry := List SessionEntry

/-- `register(accountId, tokenId, issuedAt)` of the Session Registry. -/
def registerSession (reg : SessionRegistry) (accountId : String) (tokenId : Nat)
    (now : Nat) : SessionRegistry :=
  { accountId := accountId, tokenId := tokenId, issuedAt := now, revoked := false } :: reg

/-- `isActive(tokenId)` of the Session Registry. -/
def isActive (reg : SessionRegistry) (tokenId : Nat) : Bool :=
  reg.any fun e => e.tokenId == tokenId && !e.revoked

/-- `revoke(tokenId)` of the Session Registry: marks every entry with the
given token identifier revoked. -/
def revokeToken (reg : SessionRegistry) (tokenId : Nat) : SessionRegistry :=
  reg.map fun e => if e.tokenId == tokenId then { e with revoked := true } else e

/-- A freshly signed access token. -/
def mkAccessToken (key : Nat) (accountId : String) (now jti : Nat) : SpecToken :=
  { accountId := accountId, issuedAt := now, expiresAt := now + accessTTL, jti := jti,
    sig := tokenMac key accountId now (now + accessTTL) jti }

/-- A freshly signed refresh token. -/
def mkRefreshToken (key : Nat) (accountId : String) (now jti : Nat) : SpecToken :=
  { accountId := accountId, issuedAt := now, expiresAt := now + refreshTTL, jti := jti,
    sig := tokenMac key accountId now (now + refreshTTL) jti }

/-- An issued access/refresh token pair. -/
structure TokenPair where
  access : SpecToken
  refresh : SpecToken
deriving DecidableEq

/-- Modelled from the spec: `issuePair(accountId)` — produces a fresh
access token (TTL 15m) and refresh token (TTL 7d, unique id `jtiR`),
registers the refresh token with the Session Registry, and returns both;
section 4.3. -/
def issuePair (key : Nat) (reg : SessionRegistry) (accountId : String)
    (now jtiA jtiR : Nat) : TokenPair × SessionRegistry :=
  let a := mkAccessToken key accountId now jtiA
  let r := mkRefreshToken key accountId now jtiR
  (⟨a, r⟩, registerSession reg accountId r.jti now)

/-- Result of `rotate(refreshToken)`. -/
inductive RotateResult where
  | rotated (pair : TokenPair)
  | tokenExpired
  | tokenInvalid
  | tokenRevoked
deriving DecidableEq

/-- Modelled from the spec: `rotate(refreshToken)` — verifies signature
and expiry, asks the Session Registry whether the token id is still
active, fails with `TokenRevoked` if not, and otherwise atomically marks
the old id revoked and issues a brand-new pair bound to the same account;
section 4.3. -/
def rotate (key : Nat) (reg : SessionRegistry) (t : SpecToken)
    (now jtiA jtiR : Nat) : RotateResult × SessionRegistry :=
  if !verifySig key t then (.tokenInvalid, reg)
  else if t.expiresAt < now then (.tokenExpired, reg)
  else if !isActive reg t.jti then (.tokenRevoked, reg)
  else
    let reg1 := revokeToken reg t.jti
    let (p, reg2) := issuePair key reg1 t.accountId now jtiA jtiR
    (.rotated p, reg2)

/-- After revoking a token id, it is no longer active. -/
theorem isActive_revokeToken (reg : SessionRegistry) (j : Nat) :
    isActive (revokeToken reg j) j = false := by
  simp only [isActive, revokeToken, List.any_map, List.any_eq_false, Function.comp]
  intro e _
  by_cases h : e.tokenId = j <;> simp [h]

/-- Claim C3: every issued pair carries an access token whose validity
window is exactly 15 minutes and a refresh token whose validity window is
exactly 7 days, and the documented login response reports them as
`expiresIn 15m`, `refreshExpiresIn 7d` with `tokenType Bearer`. -/
theorem c3_token_ttls (key : Nat) (reg : SessionRegistry) (accountId : String)
    (now jtiA jtiR : Nat) :
    (issuePair key reg accountId now jtiA jtiR).1.access.expiresAt
        - (issuePair key reg accountId now jtiA jtiR).1.access.issuedAt = 15 * 60 ∧
    (issuePair key reg accountId now jtiA jtiR).1.refresh.expiresAt
        - (issuePair key reg accountId now jtiA jtiR).1.refresh.issuedAt = 7 * 24 * 60 * 60 ∧
    loginResponseDoc.expiresIn = "15m" ∧
    loginResponseDoc.refreshExpiresIn = "7d" ∧
    loginResponseDoc.tokenType = "Bearer" := by
  refine ⟨?_, ?_, rfl, rfl, rfl⟩
  · simp [issuePair, mkAccessToken, accessTTL]
  · simp [issuePair, mkRefreshToken, refreshTTL]

/-- Claim C4: rotation is an atomic verify-then-revoke-then-issue step, so
of two invocations of `rotate` with the same refresh token — in either
interleaving order, both within the token's validity window, the new pair
carrying a fresh token id — the first succeeds with a new pair and the
second fails with `TokenRevoked`: exactly one success, no double-issue. -/
theorem c4_rotation_single_success (key : Nat) (reg : SessionRegistry) (t : SpecToken)
    (now1 now2 jtiA1 jtiR1 jtiA2 jtiR2 : Nat)
    (hsig : verifySig key t = true)
    (hexp1 : now1 ≤ t.expiresAt) (hexp2 : now2 ≤ t.expiresAt)
    (hact : isActive reg t.jti = true)
    (hfresh : jtiR1 ≠ t.jti) :
    (∃ p, (rotate key reg t now1 jtiA1 jtiR1).1 = .rotated p) ∧
    (rotate key (rotate key reg t now1 jtiA1 jtiR1).2 t now2 jtiA2 jtiR2).1
      = .tokenRevoked := by
  have hnl1 : ¬ t.expiresAt < now1 := Nat.not_lt.mpr hexp1
  have hnl2 : ¬ t.expiresAt < now2 := Nat.not_lt.mpr hexp2
  have hstep : rotate key reg t now1 jtiA1 jtiR1 =
      (.rotated (issuePair key (revokeToken reg t.jti) t.accountId now1 jtiA1 jtiR1).1,
       (issuePair key (revokeToken reg t.jti) t.accountId now1 jtiA1 jtiR1).2) := by
    simp [rotate, hsig, hnl1, hact]
  refine ⟨⟨_, by rw [hstep]⟩, ?_⟩
  rw [hstep]
  have hinact : isActive (issuePair key (revokeToken reg t.jti) t.accountId
      now1 jtiA1 jtiR1).2 t.jti = false := by
    have h1 := isActive_revokeToken reg t.jti
    simp only [issuePair, registerSession, mkRefreshToken, isActive, List.any_cons] at h1 ⊢
    simp [hfresh, h1]
  simp [rotate, hsig, hnl2, hinact]

/-- Witness for claim C4 at a concrete registry and token: account `a`,
refresh token id `5` issued at time `0`, both rotations at time `1`. -/
theorem c4_witness :
    (∃ p, (rotate 1 (registerSession [] "a" 5 0) (mkRefreshToken 1 "a" 0 5) 1 10 11).1
        = .rotated p) ∧
    (rotate 1 (rotate 1 (registerSession [] "a" 5 0) (mkRefreshToken 1 "a" 0 5) 1 10 11).2
        (mkRefreshToken 1 "a" 0 5) 1 12 13).1 = .tokenRevoked :=
  c4_rotation_single_success 1 (registerSession [] "a" 5 0) (mkRefreshToken 1 "a" 0 5)
    1 1 10 11 12 13 (by decide) (by decide) (by decide) (by decide) (by decide)

/-! ### OTP Manager

The OTP store is not present under `src/` (only the OTP endpoints'
documentation is), so it is modelled from the spec, section 4.2.  The spec
stores a salted hash of the code and compares hashes in constant time;
hashing and timing do not affect the state-machine properties, so the
model stores the code itself and compares equality. -/

/-- The intent an OTP is bound to. -/
inductive OtpIntent where
  | register
  | resetPassword
deriving DecidableEq

/-- Modelled from the spec: an OTP record — owning account, intent, code,
issuance and expiry timestamps, consumed flag, superseded flag, attempt
counter. -/
structure OtpRecord where
  accountId : String
  intent : OtpIntent
  code : String
  issuedAt : Nat
  expiresAt : Nat
  consumed : Bool
  superseded : Bool
  attempts : Nat
deriving DecidableEq

/-- The OTP backing store. -/
abbrev OtpStore := List OtpRecord

/-- OTP TTL: 10 minutes, in seconds. -/
def otpTTL : Nat := 10 * 60

/-- Maximum verification attempts before `OtpExhausted`. -/
def maxOtpAttempts : Nat := 5

/-- A record that is neither consumed nor superseded (its expiry is
checked against the clock separately). -/
def currentRec (r : OtpRecord) : Bool := !r.consumed && !r.superseded

/-- Marks every record for `(acct, intent)` superseded. -/
def supersedeAll (s : OtpStore) (acct : String) (intent : OtpIntent) : OtpStore :=
  s.map fun r =>
    if r.accountId = acct ∧ r.intent = intent then { r with superseded := true } else r

/-- Modelled from the spec: `issue(accountId, intent)` with the generated
code passed in — supersedes any prior record for `(accountId, intent)` and
persists the new record with the fixed TTL; `resend` is equivalent. -/
def issueOtp (s : OtpStore) (acct : String) (intent : OtpIntent) (code : String)
    (now : Nat) : OtpStore :=
  { accountId := acct, intent := intent, code := code, issuedAt := now,
    expiresAt := now + otpTTL, consumed := false, superseded := false, attempts := 0 }
    :: supersedeAll s acct intent

/-- The record `verify` considers: the (unique, by the invariant below)
unconsumed, unsuperseded record for `(acct, intent)`. -/
def findCurrent (s : OtpStore) (acct : String) (intent : OtpIntent) : Option OtpRecord :=
  s.find? fun r => decide (r.accountId = acct ∧ r.intent = intent) && currentRec r

/-- Result of `verify`. -/
inductive OtpResult where
  | ok
  | otpNotFound
  | otpExpired
  | otpExhausted
  | otpMismatch
deriving DecidableEq

/-- Modelled from the spec: `verify(accountId, intent, submittedCode)` —
`OtpNotFound` without an active record, `OtpExpired` past the TTL,
`OtpExhausted` past the attempt limit, consume-and-succeed on match, and
increment-and-`OtpMismatch` otherwise. -/
def verifyOtp (s : OtpStore) (acct : String) (intent : OtpIntent) (submitted : String)
    (now : Nat) : OtpResult × OtpStore :=
  match findCurrent s acct intent with
  | none => (.otpNotFound, s)
  | some r =>
    if r.expiresAt < now then (.otpExpired, s)
    else if maxOtpAttempts ≤ r.attempts then (.otpExhausted, s)
    else if r.code = submitted then
      (.ok, s.map fun q => if q = r then { q with consumed := true } else q)
    else
      (.otpMismatch, s.map fun q => if q = r then { q with attempts := q.attempts + 1 } else q)

/-- An operation on the OTP store (resend is `issue`). -/
inductive OtpOp where
  | issue (acct : String) (intent : OtpIntent) (code : String) (now : Nat)
  | verify (acct : String) (intent : OtpIntent) (code : String) (now : Nat)

/-- One step of the OTP state machine. -/
def applyOtpOp (s : OtpStore) : OtpOp → OtpStore
  | .issue a i c n => issueOtp s a i c n
  | .verify a i c n => (verifyOtp s a i c n).2

/-- A sequence of steps of the OTP state machine. -/
def applyOtpOps (s : OtpStore) (ops : List OtpOp) : OtpStore :=
  ops.foldl applyOtpOp s

/-- Two records owned by the same `(account, intent)` pair. -/
def sameKey (r1 r2 : OtpRecord) : Prop :=
  r1.accountId = r2.accountId ∧ r1.intent = r2.intent

/-- The spec's invariant: at most one unconsumed, unsuperseded record per
`(account, intent)` — no two distinct positions of the store hold current
records with the same key. -/
def atMostOneCurrent (s : OtpStore) : Prop :=
  s.Pairwise fun r1 r2 => ¬(currentRec r1 = true ∧ currentRec r2 = true ∧ sameKey r1 r2)

/-- The pairwise relation of `atMostOneCurrent` is symmetric. -/
theorem atMostOneCurrent_symm :
    Symmetric fun r1 r2 : OtpRecord =>
      ¬(currentRec r1 = true ∧ currentRec r2 = true ∧ sameKey r1 r2) := by
  intro r1 r2 h hc
  exact h ⟨hc.2.1, hc.1, hc.2.2.1.symm, hc.2.2.2.symm⟩

/-- Any store update that can only keep a record current while preserving
its key preserves the invariant. -/
theorem atMostOneCurrent_map (s : OtpStore) (f : OtpRecord → OtpRecord)
    (hf : ∀ r, currentRec (f r) = true → currentRec r = true ∧ sameKey (f r) r)
    (h : atMostOneCurrent s) : atMostOneCurrent (s.map f) := by
  rw [atMostOneCurrent, List.pairwise_map]
  refine h.imp ?_
  intro r1 r2 hP hc
  obtain ⟨hc1, hc2, hk⟩ := hc
  obtain ⟨hq1, hk1⟩ := hf r1 hc1
  obtain ⟨hq2, hk2⟩ := hf r2 hc2
  exact hP ⟨hq1, hq2, (hk1.1.symm.trans hk.1).trans hk2.1,
    (hk1.2.symm.trans hk.2).trans hk2.2⟩

/-- A record of `supersedeAll s acct intent` that is still current does
not have the key `(acct, intent)` and was already in the store. -/
theorem supersedeAll_current (s : OtpStore) (acct : String) (intent : OtpIntent)
    (r : OtpRecord) (hr : r ∈ supersedeAll s acct intent)
    (hc : currentRec r = true) :
    r ∈ s ∧ ¬(r.accountId = acct ∧ r.intent = intent) := by
  obtain ⟨q, hq, rfl⟩ := List.mem_map.mp hr
  by_cases hkey : q.accountId = acct ∧ q.intent = intent
  · simp [hkey, currentRec] at hc
  · simp only [if_neg hkey]
    exact ⟨hq, hkey⟩

/-- `issue` preserves the at-most-one-current invariant. -/
theorem atMostOneCurrent_issue (s : OtpStore) (acct : String) (intent : OtpIntent)
    (code : String) (now : Nat) (h : atMostOneCurrent s) :
    atMostOneCurrent (issueOtp s acct intent code now) := by
  rw [issueOtp, atMostOneCurrent, List.pairwise_cons]
  constructor
  · intro r hr hc
    obtain ⟨_, hnk⟩ := supersedeAll_current s acct intent r hr hc.2.1
    exact hnk ⟨hc.2.2.1.symm, hc.2.2.2.symm⟩
  · have hf : ∀ r : OtpRecord, currentRec
        ((fun r => if r.accountId = acct ∧ r.intent = intent
          then { r with superseded := true } else r) r) = true →
        currentRec r = true ∧ sameKey ((fun r =>
          if r.accountId = acct ∧ r.intent = intent
          then { r with superseded := true } else r) r) r := by
      intro r hc
      by_cases hkey : r.accountId = acct ∧ r.intent = intent
      · simp [hkey, currentRec] at hc
      · simp only [hkey, if_false, if_neg hkey]
        exact ⟨by simpa [hkey] using hc, rfl, rfl⟩
    exact atMostOneCurrent_map s _ hf h

/-- `verify` preserves the at-most-one-current invariant. -/
theorem atMostOneCurrent_verify (s : OtpStore) (acct : String) (intent : OtpIntent)
    (submitted : String) (now : Nat) (h : atMostOneCurrent s) :
    atMostOneCurrent (verifyOtp s acct intent submitted now).2 := by
  rw [verifyOtp]
  cases hfind : findCurrent s acct intent with
  | none => exact h
  | some r0 =>
    by_cases h1 : r0.expiresAt < now
    · simpa [h1] using h
    by_cases h2 : maxOtpAttempts ≤ r0.attempts
    · simpa [h1, h2] using h
    by_cases h3 : r0.code = submitted
    · simp only [h1, h2, h3, if_false, if_true, if_neg h1, if_neg h2, if_pos h3]
      refine atMostOneCurrent_map s _ ?_ h
      intro q hc
      by_cases hq : q = r0
      · simp [hq, currentRec] at hc
      · simp only [if_neg hq] at hc ⊢
        exact ⟨hc, rfl, rfl⟩
    · simp only [h1, h2, h3, if_neg h1, if_neg h2, if_neg h3]
      refine atMostOneCurrent_map s _ ?_ h
      intro q hc
      by_cases hq : q = r0
      · subst hq
        simp only [if_pos rfl] at hc ⊢
        exact ⟨by simpa [currentRec] using hc, rfl, rfl⟩
      · simp only [if_neg hq] at hc ⊢
        exact ⟨hc, rfl, rfl⟩

/-- Every step of the OTP state machine preserves the invariant. -/
theorem atMostOneCurrent_step (s : OtpStore) (op : OtpOp) (h : atMostOneCurrent s) :
    atMostOneCurrent (applyOtpOp s op) := by
  cases op with
  | issue a i c n => exact atMostOneCurrent_issue s a i c n h
  | verify a i c n => exact atMostOneCurrent_verify s a i c n h

/-- The invariant holds along every run of the OTP state machine. -/
theorem atMostOneCurrent_run (s : OtpStore) (ops : List OtpOp) (h : atMostOneCurrent s) :
    atMostOneCurrent (applyOtpOps s ops) := by
  induction ops generalizing s with
  | nil => exact h
  | cons op rest ih => exact ih _ (atMostOneCurrent_step s op h)

/-- No current record for `(acct, intent)` carries the code `code`. -/
def noCurrentCode (s : OtpStore) (acct : String) (intent : OtpIntent) (code : String) : Prop :=
  ∀ r ∈ s, r.accountId = acct → r.intent = intent → currentRec r = true → r.code ≠ code

/-- An operation that does not issue the code `code` for `(acct, intent)`
again; spec: codes are generated cryptographically at random, so a later
issuance never reuses a consumed code. -/
def freshFor (op : OtpOp) (acct : String) (intent : OtpIntent) (code : String) : Prop :=
  match op with
  | .issue a2 i2 c2 _ => a2 = acct → i2 = intent → c2 ≠ code
  | .verify _ _ _ _ => True

instance freshForDecidable (op : OtpOp) (acct : String) (intent : OtpIntent)
    (code : String) : Decidable (freshFor op acct intent code) :=
  match op with
  | .issue a2 i2 c2 _ => inferInstanceAs (Decidable (a2 = acct → i2 = intent → c2 ≠ code))
  | .verify _ _ _ _ => inferInstanceAs (Decidable True)

/-- After a successful `verify` of `code`, no current record for the pair
carries `code` any more. -/
theorem noCurrentCode_after_ok (s : OtpStore) (acct : String) (intent : OtpIntent)
    (code : String) (now : Nat) (hinv : atMostOneCurrent s)
    (hok : (verifyOtp s acct intent code now).1 = .ok) :
    noCurrentCode (verifyOtp s acct intent code now).2 acct intent code := by
  rw [verifyOtp] at hok ⊢
  cases hfind : findCurrent s acct intent with
  | none => simp [hfind] at hok
  | some r0 =>
    have hr0mem : r0 ∈ s := List.mem_of_find?_eq_some hfind
    have hr0p := List.find?_some hfind
    simp only [Bool.and_eq_true, decide_eq_true_eq] at hr0p
    obtain ⟨⟨hr0a, hr0i⟩, hr0c⟩ := hr0p
    simp only [hfind] at hok ⊢
    by_cases h1 : r0.expiresAt < now
    · simp [h1] at hok
    by_cases h2 : maxOtpAttempts ≤ r0.attempts
    · simp [h1, h2] at hok
    by_cases h3 : r0.code = code
    · simp only [if_neg h1, if_neg h2, if_pos h3]
      intro r hr hacc hint hcur
      obtain ⟨q, hq, rfl⟩ := List.mem_map.mp hr
      by_cases hq0 : q = r0
      · simp [hq0, currentRec] at hcur
      · simp only [if_neg hq0] at hcur hacc hint ⊢
        rw [atMostOneCurrent] at hinv
        have hP := (List.Pairwise.forall atMostOneCurrent_symm hinv) hq hr0mem hq0
        exact absurd ⟨hcur, hr0c, hacc.trans hr0a.symm, hint.trans hr0i.symm⟩ hP
    · simp [h1, h2, h3] at hok

/-- `verify` steps never make a code current again. -/
theorem noCurrentCode_verifyStep (s : OtpStore) (a2 : String) (i2 : OtpIntent)
    (c2 : String) (n : Nat) (acct : String) (intent : OtpIntent) (code : String)
    (h : noCurrentCode s acct intent code) :
    noCurrentCode (verifyOtp s a2 i2 c2 n).2 acct intent code := by
  rw [verifyOtp]
  cases hfind : findCurrent s a2 i2 with
  | none => exact h
  | some r0 =>
    by_cases h1 : r0.expiresAt < n
    · simpa [h1] using h
    by_cases h2 : maxOtpAttempts ≤ r0.attempts
    · simpa [h1, h2] using h
    by_cases h3 : r0.code = c2
    · simp only [if_neg h1, if_neg h2, if_pos h3]
      intro r hr hacc hint hcur
      obtain ⟨q, hq, rfl⟩ := List.mem_map.mp hr
      by_cases hq0 : q = r0
      · simp [hq0, currentRec] at hcur
      · simp only [if_neg hq0] at hacc hint hcur ⊢
        exact h q hq hacc hint hcur
    · simp only [if_neg h1, if_neg h2, if_neg h3]
      intro r hr hacc hint hcur
      obtain ⟨q, hq, rfl⟩ := List.mem_map.mp hr
      by_cases hq0 : q = r0
      · subst hq0
        simp only [if_pos rfl] at hacc hint hcur ⊢
        exact h q hq hacc hint (by simpa [currentRec] using hcur)
      · simp only [if_neg hq0] at hacc hint hcur ⊢
        exact h q hq hacc hint hcur

/-- A step that does not reissue the code preserves the absence of a
current record carrying it. -/
theorem noCurrentCode_step (s : OtpStore) (op : OtpOp) (acct : String)
    (intent : OtpIntent) (code : String)
    (h : noCurrentCode s acct intent code) (hf : freshFor op acct intent code) :
    noCurrentCode (applyOtpOp s op) acct intent code := by
  cases op with
  | issue a2 i2 c2 n =>
    intro r hr hacc hint hcur
    rw [applyOtpOp, issueOtp] at hr
    rcases List.mem_cons.mp hr with hnew | htail
    · subst hnew
      exact hf hacc hint
    · obtain ⟨hmem, _⟩ := supersedeAll_current s a2 i2 r htail hcur
      exact h r hmem hacc hint hcur
  | verify a2 i2 c2 n => exact noCurrentCode_verifyStep s a2 i2 c2 n acct intent code h

/-- A run of steps none of which reissues the code preserves the absence
of a current record carrying it. -/
theorem noCurrentCode_run (s : OtpStore) (ops : List OtpOp) (acct : String)
    (intent : OtpIntent) (code : String)
    (h : noCurrentCode s acct intent code) (hf : ∀ op ∈ ops, freshFor op acct intent code) :
    noCurrentCode (applyOtpOps s ops) acct intent code := by
  induction ops generalizing s with
  | nil => exact h
  | cons op rest ih =>
    exact ih _ (noCurrentCode_step s op acct intent code h
      (hf op (List.mem_cons_self op rest))) (fun o ho => hf o (List.mem_cons_of_mem op ho))

/-- When no current record carries the submitted code, `verify` fails. -/
theorem verify_fails_of_noCurrentCode (s : OtpStore) (acct : String) (intent : OtpIntent)
    (code : String) (m : Nat) (h : noCurrentCode s acct intent code) :
    (verifyOtp s acct intent code m).1 ≠ .ok := by
  rw [verifyOtp]
  cases hfind : findCurrent s acct intent with
  | none => simp
  | some r0 =>
    have hr0mem : r0 ∈ s := List.mem_of_find?_eq_some hfind
    have hr0p := List.find?_some hfind
    simp only [Bool.and_eq_true, decide_eq_true_eq] at hr0p
    obtain ⟨⟨hr0a, hr0i⟩, hr0c⟩ := hr0p
    have hcode : r0.code ≠ code := h r0 hr0mem hr0a hr0i hr0c
    by_cases h1 : r0.expiresAt < m
    · simp [h1]
    by_cases h2 : maxOtpAttempts ≤ r0.attempts
    · simp [h1, h2]
    · simp [h1, h2, hcode]

/-- Claim C5: once `verify` has succeeded on an OTP (marking it consumed),
every later `verify` of the same code for that `(account, intent)` fails,
along any continuation of the run in which issuance never reuses the
consumed code — a consumed OTP never verifies again. -/
theorem c5_consumed_never_verifies (s : OtpStore) (acct : String) (intent : OtpIntent)
    (code : String) (n : Nat) (hinv : atMostOneCurrent s)
    (hok : (verifyOtp s acct intent code n).1 = .ok)
    (ops : List OtpOp) (hfresh : ∀ op ∈ ops, freshFor op acct intent code) (m : Nat) :
    (verifyOtp (applyOtpOps (verifyOtp s acct intent code n).2 ops) acct intent code m).1
      ≠ .ok := by
  have h0 := noCurrentCode_after_ok s acct intent code n hinv hok
  have h1 := noCurrentCode_run _ ops acct intent code h0 hfresh
  exact verify_fails_of_noCurrentCode _ acct intent code m h1

/-- Witness for claim C5: issue `111111` for `(u, register)`, verify it
successfully at time 1, issue a fresh code `222222` at time 2; the
consumed code `111111` no longer verifies at time 3. -/
theorem c5_witness :
    (verifyOtp (applyOtpOps (verifyOtp (issueOtp [] "u" .register "111111" 0)
        "u" .register "111111" 1).2 [.issue "u" .register "222222" 2])
      "u" .register "111111" 3).1 ≠ .ok :=
  c5_consumed_never_verifies (issueOtp [] "u" .register "111111" 0) "u" .register
    "111111" 1 (by rw [atMostOneCurrent]; simp [issueOtp, supersedeAll]) (by decide)
    [.issue "u" .register "222222" 2] (by decide) 3

/-- Claim C6: along every run of the OTP state machine from the empty
store at most one current (unconsumed, unsuperseded — hence at most one
active) record exists per `(account, intent)`, and issuing a new OTP
supersedes the prior one, so an old code (differing from the new one)
never verifies once the newer one has been issued. -/
theorem c6_single_active_otp :
    (∀ ops : List OtpOp, atMostOneCurrent (applyOtpOps [] ops)) ∧
    (∀ (s : OtpStore) (acct : String) (intent : OtpIntent) (cNew cOld : String)
      (n m : Nat), cOld ≠ cNew →
      (verifyOtp (issueOtp s acct intent cNew n) acct intent cOld m).1 ≠ .ok) := by
  constructor
  · intro ops
    exact atMostOneCurrent_run [] ops List.Pairwise.nil
  · intro s acct intent cNew cOld n m hne
    have hfind : findCurrent (issueOtp s acct intent cNew n) acct intent =
        some { accountId := acct, intent := intent, code := cNew, issuedAt := n,
               expiresAt := n + otpTTL, consumed := false, superseded := false,
               attempts := 0 } := by
      rw [issueOtp, findCurrent]
      exact List.find?_cons_of_pos _ (by simp [currentRec])
    rw [verifyOtp, hfind]
    by_cases h1 : n + otpTTL < m
    · simp [h1]
    · have h3 : cNew ≠ cOld := fun h => hne h.symm
      simp [h1, maxOtpAttempts, h3]

/-- Witness for claim C6: a concrete two-issue run keeps the invariant,
and after reissuing for `(u, register)` the old code fails. -/
theorem c6_witness :
    atMostOneCurrent (applyOtpOps []
      [.issue "u" .register "111111" 0, .issue "u" .register "222222" 1]) ∧
    (verifyOtp (issueOtp [] "u" .register "222222" 0) "u" .register "111111" 1).1
      ≠ .ok :=
  ⟨c6_single_active_otp.1 [.issue "u" .register "111111" 0, .issue "u" .register "222222" 1],
   c6_single_active_otp.2 [] "u" .register "222222" "111111" 0 1 (by decide)⟩

/-! ### Credential Store and the enumeration-sensitive flows

The login and forgot-password orchestration is not present under `src/`
(only its endpoint documentation is), so it is modelled from the spec,
sections 4.1 and 4.5. -/

/-- Modelled from the spec: an account record — identifier, password
hash, verification flag. -/
structure Account where
  identifier : String
  passwordHash : Nat
  verified : Bool
deriving DecidableEq

/-- The Credential Store backing store. -/
abbrev CredStore := List Account

/-- `find(identifier)` of the Credential Store. -/
def findAccount (st : CredStore) (ident : String) : Option Account :=
  st.find? fun a => a.identifier == ident

/-- Modelled from the spec: the salted slow password hash, realised as an
executable injective encoding (its cryptographic strength is outside the
state machine). -/
def hashPassword (pw : String) : Nat :=
  pw.data.foldl (fun h c => h * 1114112 + c.toNat + 1) 3

/-- User-visible outcome of `login`. -/
inductive LoginResult where
  | success (pair : TokenPair)
  | invalidCredentials
  | accountNotVerified
deriving DecidableEq

/-- Modelled from the spec: the login flow — requires a Verified account,
checks `passwordMatches`, then issues a token pair; fails with the generic
`InvalidCredentials` on an unknown identifier or password mismatch and
with `AccountNotVerified` on an existing unverified account
(section 4.5). -/
def login (key : Nat) (st : CredStore) (reg : SessionRegistry) (ident pw : String)
    (now jtiA jtiR : Nat) : LoginResult × SessionRegistry :=
  match findAccount st ident with
  | none => (.invalidCredentials, reg)
  | some acct =>
    if !acct.verified then (.accountNotVerified, reg)
    else if acct.passwordHash == hashPassword pw then
      let (p, reg1) := issuePair key reg ident now jtiA jtiR
      (.success p, reg1)
    else (.invalidCredentials, reg)

/-- The uniform user-visible response of the forgot-password flow. -/
def forgotPasswordMessage : String :=
  "If the account exists, a reset code has been sent"

/-- Modelled from the spec: the forgot-password flow — issues a reset OTP
for an existing account and answers with the identical response whether or
not the account exists (section 4.5). -/
def forgotPassword (st : CredStore) (otps : OtpStore) (ident code : String)
    (now : Nat) : String × OtpStore :=
  match findAccount st ident with
  | none => (forgotPasswordMessage, otps)
  | some _ => (forgotPasswordMessage, issueOtp otps ident .resetPassword code now)

/-- Claim C7, counterexample: two login runs that differ only in whether
the account `u` exists — in one store `u` is present but unverified, in
the other absent — produce distinguishable user-visible responses
(`AccountNotVerified` versus `InvalidCredentials`), an enumeration leak
the design itself mandates via its `AccountNotVerified` failure. -/
theorem c7_counterexample :
    (login 0 [{ identifier := "u", passwordHash := hashPassword "pw", verified := false }]
        [] "u" "pw" 0 1 2).1 = .accountNotVerified ∧
    (login 0 ([] : CredStore) [] "u" "pw" 0 1 2).1 = .invalidCredentials ∧
    LoginResult.accountNotVerified ≠ LoginResult.invalidCredentials := by
  refine ⟨by decide, rfl, by decide⟩

/-- Claim C7, amended: the forgot-password flow answers identically for
any two stores — in particular whether or not the account exists — with
no side condition; the login flow answers identically provided the
existing account is verified and the submitted password does not match —
an existing *unverified* account is distinguishable from an absent one
(`AccountNotVerified` versus `InvalidCredentials`). -/
theorem c7_amended (key : Nat) (stA stB : CredStore) (reg : SessionRegistry)
    (otpsA otpsB : OtpStore) (ident pw code : String) (now jtiA jtiR : Nat) :
    (forgotPassword stA otpsA ident code now).1
      = (forgotPassword stB otpsB ident code now).1 ∧
    (∀ acct : Account, findAccount stA ident = some acct →
      findAccount stB ident = none → acct.verified = true →
      acct.passwordHash ≠ hashPassword pw →
      (login key stA reg ident pw now jtiA jtiR).1
        = (login key stB reg ident pw now jtiA jtiR).1) := by
  constructor
  · rw [forgotPassword, forgotPassword]
    cases findAccount stA ident <;> cases findAccount stB ident <;> rfl
  · intro acct hA hB hver hpw
    rw [login, login, hA, hB]
    simp [hver, hpw]

/-- Witness for the amended claim C7 at a concrete verified account and a
wrong password. -/
theorem c7_amended_witness :
    (forgotPassword [⟨"u", hashPassword "pw", true⟩] [] "u" "123456" 0).1
      = (forgotPassword ([] : CredStore) [] "u" "123456" 0).1 ∧
    (login 0 [⟨"u", hashPassword "pw", true⟩] [] "u" "wrong" 0 1 2).1
      = (login 0 ([] : CredStore) [] "u" "wrong" 0 1 2).1 :=
  have h := c7_amended 0 [⟨"u", hashPassword "pw", true⟩] [] [] [] []
    "u" "wrong" "123456" 0 1 2
  ⟨h.1, h.2 ⟨"u", hashPassword "pw", true⟩ (by decide) rfl rfl (by decide)⟩

end UserService
